import Mathlib

/-!
Verification of the Akai APC mini mk2 controller core
(`led_controller.py` and the behavior-engine parts of `dashboard.py`).

The Python classes are shallowly embedded: `dict`s become association
lists with in-place replacement on key collision (matching Python dict
update semantics), raised exceptions become `Except.error`, MIDI output
becomes an explicit list of sent messages, and the background reader
becomes a recursion over a finite list of inbound messages producing an
event trace.
-/

namespace Apc

/-! ## Association-list model of Python `dict` -/

/-- Lookup in a Python-style dict modelled as an association list.
Returns the value of the first (and by construction only) binding. -/
def dictGet {κ α : Type} [DecidableEq κ] : List (κ × α) → κ → Option α
  | [], _ => none
  | (k', v) :: rest, k => if k' = k then some v else dictGet rest k

/-- `d[k] = v` on a Python-style dict: replace the existing binding for
`k` in place, or append a fresh binding at the end. -/
def dictInsert {κ α : Type} [DecidableEq κ] (k : κ) (v : α) :
    List (κ × α) → List (κ × α)
  | [] => [(k, v)]
  | (k', v') :: rest =>
    if k' = k then (k, v) :: rest else (k', v') :: dictInsert k v rest

theorem dictGet_insert_self {κ α : Type} [DecidableEq κ] (k : κ) (v : α)
    (m : List (κ × α)) : dictGet (dictInsert k v m) k = some v := by
  induction m with
  | nil => simp [dictGet, dictInsert]
  | cons p rest ih =>
    obtain ⟨k', v'⟩ := p
    by_cases h : k' = k
    · simp [dictGet, dictInsert, h]
    · simp [dictGet, dictInsert, h, ih]

theorem dictGet_insert_ne {κ α : Type} [DecidableEq κ] {k k' : κ} (v : α)
    (m : List (κ × α)) (h : k' ≠ k) :
    dictGet (dictInsert k v m) k' = dictGet m k' := by
  have hk : ¬ k = k' := fun hh => h hh.symm
  induction m with
  | nil => simp [dictGet, dictInsert, hk]
  | cons p rest ih =>
    obtain ⟨k0, v0⟩ := p
    by_cases h0 : k0 = k
    · subst h0
      simp [dictGet, dictInsert, hk]
    · simp [dictGet, dictInsert, h0, ih]

/-! ## Color table (`PadColor`) -/

/-- The `PadColor` enum from `led_controller.py`. -/
inductive PadColor : Type
  | OFF | DIM | GRAY | WHITE
  | LIGHT_RED | RED | DARK_RED | VERY_DARK_RED
  | LIGHT_ORANGE | ORANGE | DARK_ORANGE | BROWN
  | LIGHT_YELLOW | YELLOW | DARK_YELLOW | VERY_DARK_YELLOW
  | LIGHT_LIME | LIME | DARK_LIME | VERY_DARK_LIME
  | LIGHT_GREEN | GREEN | DARK_GREEN | VERY_DARK_GREEN
  | LIGHT_BLUE | BLUE | DARK_BLUE | VERY_DARK_BLUE
  deriving DecidableEq, Repr

/-- The wire value (`.value` in Python) of each `PadColor` member. -/
def PadColor.value : PadColor → Nat
  | .OFF => 0
  | .DIM => 1
  | .GRAY => 2
  | .WHITE => 3
  | .LIGHT_RED => 4
  | .RED => 5
  | .DARK_RED => 6
  | .VERY_DARK_RED => 7
  | .LIGHT_ORANGE => 8
  | .ORANGE => 9
  | .DARK_ORANGE => 10
  | .BROWN => 11
  | .LIGHT_YELLOW => 12
  | .YELLOW => 13
  | .DARK_YELLOW => 14
  | .VERY_DARK_YELLOW => 15
  | .LIGHT_LIME => 16
  | .LIME => 17
  | .DARK_LIME => 18
  | .VERY_DARK_LIME => 19
  | .LIGHT_GREEN => 20
  | .GREEN => 21
  | .DARK_GREEN => 22
  | .VERY_DARK_GREEN => 23
  | .LIGHT_BLUE => 44
  | .BLUE => 45
  | .DARK_BLUE => 46
  | .VERY_DARK_BLUE => 47

/-- Python `PadColor[name]` (member access by name). `none` models the
`KeyError` raised on an unknown name. -/
def PadColor.fromName : String → Option PadColor
  | "OFF" => some .OFF
  | "DIM" => some .DIM
  | "GRAY" => some .GRAY
  | "WHITE" => some .WHITE
  | "LIGHT_RED" => some .LIGHT_RED
  | "RED" => some .RED
  | "DARK_RED" => some .DARK_RED
  | "VERY_DARK_RED" => some .VERY_DARK_RED
  | "LIGHT_ORANGE" => some .LIGHT_ORANGE
  | "ORANGE" => some .ORANGE
  | "DARK_ORANGE" => some .DARK_ORANGE
  | "BROWN" => some .BROWN
  | "LIGHT_YELLOW" => some .LIGHT_YELLOW
  | "YELLOW" => some .YELLOW
  | "DARK_YELLOW" => some .DARK_YELLOW
  | "VERY_DARK_YELLOW" => some .VERY_DARK_YELLOW
  | "LIGHT_LIME" => some .LIGHT_LIME
  | "LIME" => some .LIME
  | "DARK_LIME" => some .DARK_LIME
  | "VERY_DARK_LIME" => some .VERY_DARK_LIME
  | "LIGHT_GREEN" => some .LIGHT_GREEN
  | "GREEN" => some .GREEN
  | "DARK_GREEN" => some .DARK_GREEN
  | "VERY_DARK_GREEN" => some .VERY_DARK_GREEN
  | "LIGHT_BLUE" => some .LIGHT_BLUE
  | "BLUE" => some .BLUE
  | "DARK_BLUE" => some .DARK_BLUE
  | "VERY_DARK_BLUE" => some .VERY_DARK_BLUE
  | _ => none

/-- The literal `color_map` dict inside `PadColor.get_hex_color`. -/
def color_map : List (Int × String) :=
  [(0, "#000000"), (1, "#1E1E1E"), (2, "#7F7F7F"), (3, "#FFFFFF"),
   (4, "#FF4C4C"), (5, "#FF0000"), (6, "#590000"), (7, "#190000"),
   (8, "#FFBD6C"), (9, "#FF5400"), (10, "#591D00"), (11, "#271B00"),
   (12, "#FFFF4C"), (13, "#FFFF00"), (14, "#595900"), (15, "#191900"),
   (16, "#88FF4C"), (17, "#54FF00"), (18, "#1D5900"), (19, "#142B00"),
   (20, "#4CFF4C"), (21, "#00FF00"), (22, "#005900"), (23, "#001900"),
   (44, "#4C4CFF"), (45, "#0000FF"), (46, "#000059"), (47, "#000019")]

/-- `PadColor.get_hex_color`: `color_map.get(color_value, "#000000")`. -/
def get_hex_color (color_value : Int) : String :=
  (dictGet color_map color_value).getD "#000000"

/-! ## Button and LED state types -/

/-- The `ButtonBehavior` enum. -/
inductive ButtonBehavior : Type
  | SOLID | BLINK | PULSE
  deriving DecidableEq, Repr

/-- The `ButtonType` enum (Track and Scene Launch buttons). -/
inductive ButtonType : Type
  | TRACK_1 | TRACK_2 | TRACK_3 | TRACK_4
  | TRACK_5 | TRACK_6 | TRACK_7 | TRACK_8
  | SCENE_1 | SCENE_2 | SCENE_3 | SCENE_4
  | SCENE_5 | SCENE_6 | SCENE_7 | SCENE_8
  deriving DecidableEq, Repr

/-- MIDI note of each `ButtonType` member (`.value` in Python). -/
def ButtonType.value : ButtonType → Nat
  | .TRACK_1 => 0x64
  | .TRACK_2 => 0x65
  | .TRACK_3 => 0x66
  | .TRACK_4 => 0x67
  | .TRACK_5 => 0x68
  | .TRACK_6 => 0x69
  | .TRACK_7 => 0x6A
  | .TRACK_8 => 0x6B
  | .SCENE_1 => 0x70
  | .SCENE_2 => 0x71
  | .SCENE_3 => 0x72
  | .SCENE_4 => 0x73
  | .SCENE_5 => 0x74
  | .SCENE_6 => 0x75
  | .SCENE_7 => 0x76
  | .SCENE_8 => 0x77

/-- `for button in ButtonType` iterates members in definition order. -/
def ButtonType.all : List ButtonType :=
  [.TRACK_1, .TRACK_2, .TRACK_3, .TRACK_4,
   .TRACK_5, .TRACK_6, .TRACK_7, .TRACK_8,
   .SCENE_1, .SCENE_2, .SCENE_3, .SCENE_4,
   .SCENE_5, .SCENE_6, .SCENE_7, .SCENE_8]

/-- Python `ButtonType(note)` (lookup by value); `none` models the
`ValueError` raised on a note that is no button. -/
def ButtonType.ofNote (note : Nat) : Option ButtonType :=
  ButtonType.all.find? (fun b => b.value = note)

/-- The `LedState` dataclass. -/
structure LedState : Type where
  color : PadColor
  behavior : ButtonBehavior
  is_on : Bool
  deriving DecidableEq, Repr

/-- `LedState(color=c)` with the dataclass defaults for the other fields. -/
def LedState.mkDefault (c : PadColor) : LedState :=
  ⟨c, .SOLID, true⟩

/-! ## LedController state and operations -/

/-- One `note_on` message sent on the output port
(`mido.Message('note_on', note=…, velocity=…, channel=…)`). -/
structure MidiMsg : Type where
  note : Nat
  velocity : Nat
  channel : Nat
  deriving DecidableEq, Repr

/-- The mutable state of a `LedController` instance relevant to LED
writes: the `led_states` dict and the `channel` attribute. -/
structure ControllerState : Type where
  led_states : List (Nat × LedState)
  channel : Nat
  deriving DecidableEq, Repr

/-- Freshly constructed controller: `led_states = {}`, `channel = 9`. -/
def ControllerState.init : ControllerState := ⟨[], 9⟩

/-- Result of a successful `set_pad_color` call: the updated controller
state, the message sent on the output port, and the value the Python
method returns to its caller (the method body has no `return`
statement, so this is always `none`, i.e. Python `None`). -/
structure PadWriteResult : Type where
  state : ControllerState
  sent : MidiMsg
  retval : Option LedState
  deriving DecidableEq, Repr

/-- `LedController.set_pad_color(note, color, channel)`.  Validates
`0 <= channel <= 15` (raising `ValueError` otherwise, before any
mutation), then stores `LedState(color=color)` in `led_states[note]`
and sends `note_on` with `velocity=color.value` on `channel`. -/
def set_pad_color (s : ControllerState) (note : Nat) (color : PadColor)
    (channel : Int) : Except String PadWriteResult :=
  if 0 ≤ channel ∧ channel ≤ 15 then
    .ok ⟨{ s with led_states :=
             dictInsert note (LedState.mkDefault color) s.led_states },
         ⟨note, color.value, channel.toNat⟩, none⟩
  else
    .error "Kanal muss zwischen 0 und 15 liegen"

/-- `LedController.set_button_color(button, velocity)`: sends `note_on`
with the button's note on the fixed channel 0; touches no other state. -/
def set_button_color (s : ControllerState) (button : ButtonType)
    (velocity : Nat) : ControllerState × MidiMsg :=
  (s, ⟨button.value, velocity, 0⟩)

/-- The grid-clearing loop of `LedController.clear_all`:
`for note in range(64): self.set_pad_color(note, PadColor.OFF)`
(default argument `channel=6`). -/
def clearPads : ControllerState → List Nat →
    Except String (ControllerState × List MidiMsg)
  | s, [] => .ok (s, [])
  | s, n :: rest =>
    match set_pad_color s n PadColor.OFF 6 with
    | .error e => .error e
    | .ok r =>
      match clearPads r.state rest with
      | .error e => .error e
      | .ok (s', ms) => .ok (s', r.sent :: ms)

/-- The button-clearing loop of `LedController.clear_all`:
`for button in ButtonType: self.set_button_color(button, False)`
(`False` is velocity 0 on the wire). -/
def clearButtons : ControllerState → List ButtonType →
    ControllerState × List MidiMsg
  | s, [] => (s, [])
  | s, b :: rest =>
    let p := set_button_color s b 0
    let q := clearButtons p.1 rest
    (q.1, p.2 :: q.2)

/-- `LedController.clear_all()`: clears the 64 grid pads in index
order, then the 16 Track/Scene buttons in definition order. -/
def clear_all (s : ControllerState) :
    Except String (ControllerState × List MidiMsg) :=
  match clearPads s (List.range 64) with
  | .error e => .error e
  | .ok (s1, ms1) =>
    let q := clearButtons s1 ButtonType.all
    .ok (q.1, ms1 ++ q.2)

/-- `LedController._get_note(row, col)`. -/
def get_note (row col : Nat) : Nat :=
  row * 8 + col

/-- `LedController._get_row_col(note)`: returns `(row, col)`. -/
def get_row_col (note : Nat) : Nat × Nat :=
  (note / 8, note % 8)

/-! ## String helpers (Python `in` and `startswith` on strings) -/

/-- `leadsWith needle hay`: `hay` starts with `needle`. -/
def leadsWith : List Char → List Char → Bool
  | [], _ => true
  | _ :: _, [] => false
  | a :: as, b :: bs => a == b && leadsWith as bs

/-- `containsChars needle hay`: `needle` occurs contiguously in `hay`. -/
def containsChars (needle : List Char) : List Char → Bool
  | [] => needle.isEmpty
  | c :: rest => leadsWith needle (c :: rest) || containsChars needle rest

/-- Python `needle in hay` on strings. -/
def strIn (needle hay : String) : Bool :=
  containsChars needle.toList hay.toList

/-- Python `s.startswith(p)`. -/
def strStarts (s p : String) : Bool :=
  leadsWith p.toList s.toList

/-! ## Dashboard model (behavior engine of `dashboard.py`) -/

/-- `0x64 <= note <= 0x6B or 0x70 <= note <= 0x77`: the note ranges of
the Track and Scene buttons, tested throughout `dashboard.py`. -/
def isTrackScene (note : Nat) : Bool :=
  (decide (0x64 ≤ note) && decide (note ≤ 0x6B)) ||
  (decide (0x70 ≤ note) && decide (note ≤ 0x77))

/-- The per-control behavior configuration carried by each `LedButton`
widget (`press_behavior_enabled`, `button_mode`, the pressed/unpressed
animation, color and brightness attributes). -/
structure LedButton : Type where
  press_behavior_enabled : Bool
  button_mode : String
  pressed_animation : String
  unpressed_animation : String
  pressed_color : String
  unpressed_color : String
  pressed_brightness : Nat
  unpressed_brightness : Nat
  deriving DecidableEq, Repr

/-- The literal `animations` dict inside
`Dashboard.get_animation_channel`. -/
def animation_channels : List (String × Nat) :=
  [("Pulsieren 1/16", 7), ("Pulsieren 1/8", 8),
   ("Pulsieren 1/4", 9), ("Pulsieren 1/2", 10),
   ("Blinken 1/24", 11), ("Blinken 1/16", 12),
   ("Blinken 1/8", 13), ("Blinken 1/4", 14),
   ("Blinken 1/2", 15)]

/-- `Dashboard.get_animation_channel(animation_text)`. -/
def get_animation_channel (animation_text : String) : Nat :=
  if animation_text = "Statisch" then 6
  else (dictGet animation_channels animation_text).getD 6

/-- The dashboard state consumed by the behavior engine: the wrapped
controller, the `buttons` dict of per-control configs, the
`toggle_states` dict, and the current text/index of the relevant UI
combo boxes. -/
structure DashState : Type where
  controller : ControllerState
  buttons : List (Nat × LedButton)
  toggle_states : List (Nat × Bool)
  enable_press_behavior_checked : Bool
  button_mode_combo : String
  pressed_animation_combo : String
  unpressed_animation_combo : String
  pressed_color_combo : String
  unpressed_color_combo : String
  pressed_brightness_combo_index : Nat
  unpressed_brightness_combo_index : Nat
  color_combo : String
  animation_combo : String
  animation_combo_index : Nat
  brightness_combo_index : Nat
  deriving DecidableEq, Repr

/-- An inbound MIDI message as seen by the dashboard callback:
`msg.type` (a string such as `"note_on"`/`"note_off"`) and `msg.note`. -/
structure InMsg : Type where
  type : String
  note : Nat
  deriving DecidableEq, Repr

/-- `Dashboard.handle_midi_input(msg)`, the observer registered on the
controller.  Returns the updated dashboard state and the messages sent
on the output port (UI-only repainting is not modelled). -/
def handle_midi_input (d : DashState) (msg : InMsg) :
    Except String (DashState × List MidiMsg) :=
  if msg.type = "note_on" ∨ msg.type = "note_off" then
    match dictGet d.buttons msg.note with
    | none => .ok (d, [])
    | some button =>
      if isTrackScene msg.note then
        if button.press_behavior_enabled then
          if button.button_mode = "Toggle" then
            if msg.type = "note_on" then
              let newBit := !((dictGet d.toggle_states msg.note).getD false)
              let ts := dictInsert msg.note newBit d.toggle_states
              let velocity : Nat :=
                if newBit then
                  if strIn "Blinken" button.pressed_animation then 2 else 1
                else 0
              match ButtonType.ofNote msg.note with
              | none => .error "ValueError: kein ButtonType"
              | some bt =>
                let p := set_button_color d.controller bt velocity
                .ok ({ d with controller := p.1, toggle_states := ts }, [p.2])
            else .ok (d, [])
          else
            let velocity : Nat :=
              if msg.type = "note_on" then
                if strIn "Blinken" button.pressed_animation then 2 else 1
              else 0
            match ButtonType.ofNote msg.note with
            | none => .error "ValueError: kein ButtonType"
            | some bt =>
              let p := set_button_color d.controller bt velocity
              .ok ({ d with controller := p.1 }, [p.2])
        else .ok (d, [])
      else
        if button.press_behavior_enabled then
          if button.button_mode = "Toggle" then
            if msg.type = "note_on" then
              let newBit := !((dictGet d.toggle_states msg.note).getD false)
              let ts := dictInsert msg.note newBit d.toggle_states
              let colorName :=
                if newBit then button.pressed_color else button.unpressed_color
              let chan : Nat :=
                if newBit then get_animation_channel button.pressed_animation
                else get_animation_channel button.unpressed_animation
              match PadColor.fromName colorName with
              | none => .error "KeyError: unbekannte Farbe"
              | some color =>
                match set_pad_color d.controller msg.note color chan with
                | .error e => .error e
                | .ok r =>
                  .ok ({ d with controller := r.state, toggle_states := ts },
                       [r.sent])
            else .ok (d, [])
          else
            let colorName :=
              if msg.type = "note_on" then button.pressed_color
              else button.unpressed_color
            let chan : Nat :=
              if msg.type = "note_on" then
                get_animation_channel button.pressed_animation
              else get_animation_channel button.unpressed_animation
            match PadColor.fromName colorName with
            | none => .error "KeyError: unbekannte Farbe"
            | some color =>
              match set_pad_color d.controller msg.note color chan with
              | .error e => .error e
              | .ok r => .ok ({ d with controller := r.state }, [r.sent])
        else .ok (d, [])
  else .ok (d, [])

/-- The initial "unpressed" write issued at the end of the
configuration branch of `Dashboard.on_button_click` (shared by the
Toggle and Flash cases). -/
def initialUnpressedWrite (d : DashState) (note : Nat) (button : LedButton) :
    Except String (DashState × List MidiMsg) :=
  if isTrackScene note = false then
    match PadColor.fromName button.unpressed_color with
    | none => .error "KeyError: unbekannte Farbe"
    | some color =>
      let chan : Nat :=
        if button.unpressed_animation = "Statisch" then
          button.unpressed_brightness
        else get_animation_channel button.unpressed_animation
      match set_pad_color d.controller note color chan with
      | .error e => .error e
      | .ok r => .ok ({ d with controller := r.state }, [r.sent])
  else
    match ButtonType.ofNote note with
    | none => .error "ValueError: kein ButtonType"
    | some bt =>
      let p := set_button_color d.controller bt 0
      .ok ({ d with controller := p.1 }, [p.2])

/-- `Dashboard.on_button_click(note)`: the synthetic GUI click.  When
the press-behavior checkbox is active, clicking a control stores the
configuration-panel combo values into that control's config, unchecks
the box, writes the initial unpressed state, and (in Toggle mode)
resets the control's toggle bit; otherwise the click is handled like a
press via the behavior engine, falling through to the global-selection
path when press behavior is disabled for the control. -/
def on_button_click (d : DashState) (note : Nat) :
    Except String (DashState × List MidiMsg) :=
  match dictGet d.buttons note with
  | none => .error "KeyError: unbekannter Button"
  | some button0 =>
    if d.enable_press_behavior_checked then
      let button : LedButton :=
        { press_behavior_enabled := true
          button_mode := d.button_mode_combo
          pressed_animation := d.pressed_animation_combo
          unpressed_animation := d.unpressed_animation_combo
          pressed_color := d.pressed_color_combo
          unpressed_color := d.unpressed_color_combo
          pressed_brightness := d.pressed_brightness_combo_index
          unpressed_brightness := d.unpressed_brightness_combo_index }
      let d1 := { d with buttons := dictInsert note button d.buttons,
                         enable_press_behavior_checked := false }
      if button.button_mode = "Toggle" then
        match initialUnpressedWrite d1 note button with
        | .error e => .error e
        | .ok (d2, ms) =>
          .ok ({ d2 with toggle_states :=
                   dictInsert note false d2.toggle_states }, ms)
      else
        initialUnpressedWrite d1 note button
    else
      if isTrackScene note then
        if button0.press_behavior_enabled then
          if button0.button_mode = "Toggle" then
            let newBit := !((dictGet d.toggle_states note).getD false)
            let ts := dictInsert note newBit d.toggle_states
            let velocity : Nat :=
              if newBit then
                if strIn "Blinken" button0.pressed_animation then 2 else 1
              else 0
            match ButtonType.ofNote note with
            | none => .error "ValueError: kein ButtonType"
            | some bt =>
              let p := set_button_color d.controller bt velocity
              .ok ({ d with controller := p.1, toggle_states := ts }, [p.2])
          else
            let velocity : Nat :=
              if strIn "Blinken" button0.pressed_animation then 2 else 1
            match ButtonType.ofNote note with
            | none => .error "ValueError: kein ButtonType"
            | some bt =>
              let p := set_button_color d.controller bt velocity
              .ok ({ d with controller := p.1 }, [p.2])
        else
          let velocity : Nat :=
            if d.color_combo = "OFF" then 0
            else if strIn "Blinken" d.animation_combo then 2 else 1
          match ButtonType.ofNote note with
          | none => .error "ValueError: kein ButtonType"
          | some bt =>
            let p := set_button_color d.controller bt velocity
            .ok ({ d with controller := p.1 }, [p.2])
      else
        if button0.press_behavior_enabled then
          if button0.button_mode = "Toggle" then
            let newBit := !((dictGet d.toggle_states note).getD false)
            let ts := dictInsert note newBit d.toggle_states
            let colorName :=
              if newBit then button0.pressed_color else button0.unpressed_color
            let chan : Nat :=
              if newBit then get_animation_channel button0.pressed_animation
              else get_animation_channel button0.unpressed_animation
            match PadColor.fromName colorName with
            | none => .error "KeyError: unbekannte Farbe"
            | some color =>
              match set_pad_color d.controller note color chan with
              | .error e => .error e
              | .ok r =>
                .ok ({ d with controller := r.state, toggle_states := ts },
                     [r.sent])
          else
            match PadColor.fromName button0.pressed_color with
            | none => .error "KeyError: unbekannte Farbe"
            | some color =>
              let chan : Nat := get_animation_channel button0.pressed_animation
              match set_pad_color d.controller note color chan with
              | .error e => .error e
              | .ok r => .ok ({ d with controller := r.state }, [r.sent])
        else
          match PadColor.fromName d.color_combo with
          | none => .error "KeyError: unbekannte Farbe"
          | some color =>
            let chan : Nat :=
              if strStarts d.animation_combo "Statisch" then
                d.brightness_combo_index
              else 7 + d.animation_combo_index - 1
            match set_pad_color d.controller note color chan with
            | .error e => .error e
            | .ok r => .ok ({ d with controller := r.state }, [r.sent])

/-- `Dashboard.on_clear_all()`: delegates to the controller's
`clear_all`; the `toggle_states` dict is not touched (the per-widget UI
repaint loop is not modelled). -/
def on_clear_all (d : DashState) :
    Except String (DashState × List MidiMsg) :=
  match clear_all d.controller with
  | .error e => .error e
  | .ok (c, ms) => .ok ({ d with controller := c }, ms)

/-- Two consecutive physical presses of the same control, composed
through `handle_midi_input`. -/
def pressTwice (d : DashState) (note : Nat) :
    Except String (DashState × List MidiMsg) :=
  match handle_midi_input d ⟨"note_on", note⟩ with
  | .error e => .error e
  | .ok (d1, _) => handle_midi_input d1 ⟨"note_on", note⟩

/-! ## Background reader (`LedController._handle_input`)

The reader loop is modelled over a finite list of inbound messages.  A
registered callback is a function that either succeeds or raises
(`Except.error`); the observable actions of the loop are collected in
an event trace. -/

/-- One observable action of the background reader. -/
inductive ReaderEvt : Type
  /-- `self.loopback_port.send(msg)`: raw forwarding to the passthrough
  output. -/
  | forward (m : InMsg)
  /-- `callback(msg)` for the callback at registration position `i`. -/
  | invoke (i : Nat) (m : InMsg)
  /-- The `print(f"Fehler beim Verarbeiten der MIDI-Nachricht: {e}")`
  in the `except` clause of the reader loop. -/
  | logError (e : String)
  deriving DecidableEq, Repr

/-- A registered observer callback: it may raise. -/
def Callback : Type := InMsg → Except String Unit

/-- `for callback in self.button_callbacks: callback(msg)`: invokes the
callbacks in registration order starting at position `i`; a raised
exception aborts the iteration and is reported. -/
def runCallbacks : List Callback → Nat → InMsg → List ReaderEvt × Option String
  | [], _, _ => ([], none)
  | cb :: rest, i, m =>
    match cb m with
    | .ok _ =>
      let p := runCallbacks rest (i + 1) m
      (.invoke i m :: p.1, p.2)
    | .error e => ([.invoke i m], some e)

/-- The body of the reader's `for msg in self.input_port` loop for one
message: forward to the loopback port when one is configured, then run
every registered callback. -/
def processMsg (hasLoopback : Bool) (cbs : List Callback) (m : InMsg) :
    List ReaderEvt × Option String :=
  let fwd := if hasLoopback then [ReaderEvt.forward m] else []
  let p := runCallbacks cbs 0 m
  (fwd ++ p.1, p.2)

/-- `LedController._handle_input` over a finite inbound stream: each
message is processed in turn; an exception raised while processing one
message is caught by the `except` clause, logged, and the loop
continues with the remaining messages. -/
def handleInput (hasLoopback : Bool) (cbs : List Callback) :
    List InMsg → List ReaderEvt
  | [] => []
  | m :: rest =>
    let p := processMsg hasLoopback cbs m
    let logged :=
      match p.2 with
      | some e =>
        [ReaderEvt.logError ("Fehler beim Verarbeiten der MIDI-Nachricht: " ++ e)]
      | none => []
    p.1 ++ logged ++ handleInput hasLoopback cbs rest

/-! ## Concrete instances used in counterexamples and witnesses -/

/-- A baseline dashboard state: fresh controller, no configured
controls, empty toggle table, default combo selections. -/
def dashBase : DashState :=
  { controller := ControllerState.init
    buttons := []
    toggle_states := []
    enable_press_behavior_checked := false
    button_mode_combo := "Toggle"
    pressed_animation_combo := "Statisch"
    unpressed_animation_combo := "Statisch"
    pressed_color_combo := "RED"
    unpressed_color_combo := "OFF"
    pressed_brightness_combo_index := 0
    unpressed_brightness_combo_index := 0
    color_combo := "RED"
    animation_combo := "Statisch"
    animation_combo_index := 0
    brightness_combo_index := 6 }

/-- A dashboard state in which the Track-1 button (note `0x64`) has its
toggle bit set. -/
def dC2 : DashState := { dashBase with toggle_states := [(0x64, true)] }

/-- A controller whose state store already holds an entry for pad 0. -/
def sC4 : ControllerState := ⟨[(0, ⟨PadColor.RED, .SOLID, true⟩)], 9⟩

/-- A pad control configured in Toggle mode, pressed RED / unpressed
OFF, both with the static animation. -/
def bC5 : LedButton :=
  { press_behavior_enabled := true
    button_mode := "Toggle"
    pressed_animation := "Statisch"
    unpressed_animation := "Statisch"
    pressed_color := "RED"
    unpressed_color := "OFF"
    pressed_brightness := 0
    unpressed_brightness := 0 }

/-- Dashboard state holding the `bC5` configuration for pad 3. -/
def dC5 : DashState := { dashBase with buttons := [(3, bC5)] }

/-- Track-1 configured in Toggle mode with a blinking pressed
animation and OFF unpressed state (the scenario of §8 of the spec). -/
def bC6 : LedButton :=
  { press_behavior_enabled := true
    button_mode := "Toggle"
    pressed_animation := "Blinken 1/8"
    unpressed_animation := "Statisch"
    pressed_color := "RED"
    unpressed_color := "OFF"
    pressed_brightness := 0
    unpressed_brightness := 0 }

/-- Dashboard state holding the `bC6` configuration for note `0x64`. -/
def dC6 : DashState := { dashBase with buttons := [(0x64, bC6)] }

/-- A callback that never raises. -/
def cbOk : Callback := fun _ => .ok ()

/-! ## Shared lemmas -/

theorem dictGet_eq_none {κ α : Type} [DecidableEq κ] (m : List (κ × α))
    (k : κ) (h : ∀ p ∈ m, p.1 ≠ k) : dictGet m k = none := by
  induction m with
  | nil => rfl
  | cons p rest ih =>
    obtain ⟨k0, v0⟩ := p
    have h0 : ¬ k0 = k := h (k0, v0) (List.mem_cons_self _ _)
    simp only [dictGet, if_neg h0]
    exact ih (fun q hq => h q (List.mem_cons_of_mem _ hq))

theorem dictGet_mem {κ α : Type} [DecidableEq κ] {m : List (κ × α)} {k : κ}
    {v : α} (h : dictGet m k = some v) : (k, v) ∈ m := by
  induction m with
  | nil => cases h
  | cons p rest ih =>
    obtain ⟨k0, v0⟩ := p
    by_cases h0 : k0 = k
    · subst h0
      simp [dictGet] at h
      subst h
      exact List.mem_cons_self _ _
    · simp only [dictGet, if_neg h0] at h
      exact List.mem_cons_of_mem _ (ih h)

theorem dictGet_foldl_insert_not_mem {α : Type} (v : α) (notes : List Nat)
    (m : List (Nat × α)) (n : Nat) (h : n ∉ notes) :
    dictGet (notes.foldl (fun acc k => dictInsert k v acc) m) n =
      dictGet m n := by
  induction notes generalizing m with
  | nil => rfl
  | cons k rest ih =>
    have h1 : n ≠ k := fun hh => h (hh ▸ List.mem_cons_self _ _)
    have h2 : n ∉ rest := fun hh => h (List.mem_cons_of_mem _ hh)
    simp only [List.foldl_cons]
    rw [ih _ h2, dictGet_insert_ne _ _ h1]

theorem dictGet_foldl_insert_mem {α : Type} (v : α) (notes : List Nat)
    (m : List (Nat × α)) (n : Nat) (h : n ∈ notes) :
    dictGet (notes.foldl (fun acc k => dictInsert k v acc) m) n = some v := by
  induction notes generalizing m with
  | nil => cases h
  | cons k rest ih =>
    simp only [List.foldl_cons]
    by_cases hr : n ∈ rest
    · exact ih _ hr
    · have hk : n = k := by
        rcases List.mem_cons.mp h with h1 | h1
        · exact h1
        · exact absurd h1 hr
      rw [dictGet_foldl_insert_not_mem _ _ _ _ hr, hk, dictGet_insert_self]

/-- `get_animation_channel` always yields a wire channel in `6..15`. -/
theorem get_animation_channel_le (t : String) :
    get_animation_channel t ≤ 15 := by
  unfold get_animation_channel
  split
  · omega
  · cases h : dictGet animation_channels t with
    | none => simp
    | some v =>
      have hv : ∀ p ∈ animation_channels, p.2 ≤ 15 := by decide
      have := hv _ (dictGet_mem h)
      simpa using this

/-- Evaluation of a `set_pad_color` call on an in-range `Nat` channel. -/
theorem set_pad_color_ok (s : ControllerState) (note : Nat)
    (color : PadColor) (chan : Nat) (h : chan ≤ 15) :
    set_pad_color s note color (chan : Int) =
      .ok ⟨{ s with led_states :=
               dictInsert note (LedState.mkDefault color) s.led_states },
           ⟨note, color.value, chan⟩, none⟩ := by
  have h0 : (0 : Int) ≤ (chan : Int) := Int.natCast_nonneg chan
  have h1 : (chan : Int) ≤ 15 := by exact_mod_cast h
  simp [set_pad_color, h0, h1]

/-- Closed form of the pad-clearing loop of `clear_all`. -/
theorem clearPads_ok (notes : List Nat) (s : ControllerState) :
    clearPads s notes =
      .ok ({ s with led_states :=
               (notes.foldl
                 (fun m n => dictInsert n (LedState.mkDefault PadColor.OFF) m)
                 s.led_states) },
           notes.map (fun n => ⟨n, 0, 6⟩)) := by
  induction notes generalizing s with
  | nil => rfl
  | cons n rest ih =>
    have hset : set_pad_color s n PadColor.OFF 6 =
        .ok ⟨{ s with led_states :=
                 dictInsert n (LedState.mkDefault PadColor.OFF) s.led_states },
             ⟨n, 0, 6⟩, none⟩ := set_pad_color_ok s n PadColor.OFF 6 (by omega)
    simp only [clearPads, hset, ih, List.foldl_cons, List.map_cons]

/-- Closed form of the button-clearing loop of `clear_all`. -/
theorem clearButtons_ok (bs : List ButtonType) (s : ControllerState) :
    clearButtons s bs = (s, bs.map (fun b => ⟨b.value, 0, 0⟩)) := by
  induction bs generalizing s with
  | nil => rfl
  | cons b rest ih =>
    simp only [clearButtons, set_button_color, ih, List.map_cons]

/-! ## Claim theorems -/

/-- C8: for every pad index `i` in `0..63`, decomposing `i` with
`_get_row_col` and recomposing with `_get_note` yields `i` again, with
`row = i / 8` and `col = i % 8` (row 0 is the bottom row by the wire
convention documented on both helpers). -/
theorem pad_index_roundtrip (i : Nat) (_h : i < 64) :
    get_note (get_row_col i).1 (get_row_col i).2 = i ∧
    (get_row_col i).1 = i / 8 ∧ (get_row_col i).2 = i % 8 := by
  refine ⟨?_, rfl, rfl⟩
  simp only [get_note, get_row_col]
  omega

/-- Witness for `pad_index_roundtrip` at pad index 42. -/
theorem pad_index_roundtrip_witness :
    get_note (get_row_col 42).1 (get_row_col 42).2 = 42 :=
  (pad_index_roundtrip 42 (by decide)).1

/-- C9: `get_hex_color` is total: every curated palette entry maps to
its hex string, and every integer outside the curated keys maps to the
black default `"#000000"` instead of failing. -/
theorem get_hex_color_total :
    (∀ p ∈ color_map, get_hex_color p.1 = p.2) ∧
    (∀ v : Int, v ∉ color_map.map Prod.fst →
      get_hex_color v = "#000000") := by
  constructor
  · decide
  · intro v hv
    have hnone : dictGet color_map v = none := by
      apply dictGet_eq_none
      intro p hp hpk
      exact hv (hpk ▸ List.mem_map_of_mem Prod.fst hp)
    simp [get_hex_color, hnone]

/-- Witness for `get_hex_color_total`: a mapped velocity (5 = RED) and
an unmapped one (24). -/
theorem get_hex_color_total_witness :
    get_hex_color 5 = "#FF0000" ∧ get_hex_color 24 = "#000000" :=
  ⟨get_hex_color_total.1 (5, "#FF0000") (by decide),
   get_hex_color_total.2 24 (by decide)⟩

/-- C10: `set_button_color` never modifies the LED state store (nor any
other controller state): reading any address afterwards returns exactly
what it returned before; only `set_pad_color` creates or replaces
state-store entries. -/
theorem set_button_color_frame (s : ControllerState) (b : ButtonType)
    (v : Nat) (addr : Nat) :
    (set_button_color s b v).1 = s ∧
    dictGet (set_button_color s b v).1.led_states addr =
      dictGet s.led_states addr :=
  ⟨rfl, rfl⟩

/-- C3: `set_pad_color` with a channel outside `0..15` raises the
invalid-channel `ValueError`.  In this embedding the error result
carries no successor state and no output message: the state store is
exactly what it was before the call and nothing is sent, for every
note and every other note alike. -/
theorem set_pad_color_invalid_channel (s : ControllerState) (note : Nat)
    (color : PadColor) (channel : Int)
    (h : channel < 0 ∨ 15 < channel) :
    set_pad_color s note color channel =
      .error "Kanal muss zwischen 0 und 15 liegen" ∧
    ∀ r : PadWriteResult, set_pad_color s note color channel ≠ .ok r := by
  have hc : ¬ (0 ≤ channel ∧ channel ≤ 15) := by omega
  constructor
  · simp [set_pad_color, hc]
  · intro r hr
    simp [set_pad_color, hc] at hr

/-- Witness for `set_pad_color_invalid_channel` at channels 16 and -1. -/
theorem set_pad_color_invalid_channel_witness :
    set_pad_color ControllerState.init 0 PadColor.RED 16 =
      .error "Kanal muss zwischen 0 und 15 liegen" ∧
    set_pad_color ControllerState.init 3 PadColor.BLUE (-1) =
      .error "Kanal muss zwischen 0 und 15 liegen" :=
  ⟨(set_pad_color_invalid_channel _ _ _ _ (Or.inr (by decide))).1,
   (set_pad_color_invalid_channel _ _ _ _ (Or.inl (by decide))).1⟩

/-- C4 counterexample: `set_pad_color` does NOT return the previous
state-store entry.  With an existing entry `(RED, SOLID, on)` for pad
0, the call `set_pad_color(0, OFF, 6)` succeeds but its Python return
value is `None` (`retval = none`), not the previous entry. -/
theorem set_pad_color_retval_counterexample :
    (set_pad_color sC4 0 PadColor.OFF 6).toOption.map
        PadWriteResult.retval = some none ∧
    dictGet sC4.led_states 0 = some ⟨PadColor.RED, .SOLID, true⟩ := by
  constructor <;> rfl

/-- C4 (amended): a successful `set_pad_color(note, color, channel)`
with `0 ≤ channel ≤ 15` replaces the state-store entry for that note,
leaves every other entry unchanged, and sends the corresponding
`note_on`; the previous entry is discarded — the method returns `None`,
never the previous entry. -/
theorem set_pad_color_replaces (s : ControllerState) (note : Nat)
    (color : PadColor) (channel : Int)
    (h0 : 0 ≤ channel) (h1 : channel ≤ 15) :
    (set_pad_color s note color channel).toOption.map
        (fun r => dictGet r.state.led_states note) =
      some (some ⟨color, .SOLID, true⟩) ∧
    (∀ m : Nat, m ≠ note →
      (set_pad_color s note color channel).toOption.map
          (fun r => dictGet r.state.led_states m) =
        some (dictGet s.led_states m)) ∧
    (set_pad_color s note color channel).toOption.map
        PadWriteResult.retval = some none ∧
    (set_pad_color s note color channel).toOption.map
        PadWriteResult.sent = some ⟨note, color.value, channel.toNat⟩ := by
  refine ⟨?_, ?_, ?_, ?_⟩
  · simp [set_pad_color, h0, h1, Except.toOption, LedState.mkDefault,
          dictGet_insert_self]
  · intro m hm
    simp [set_pad_color, h0, h1, Except.toOption,
          dictGet_insert_ne _ _ hm]
  · simp [set_pad_color, h0, h1, Except.toOption]
  · simp [set_pad_color, h0, h1, Except.toOption]

/-- Witness for `set_pad_color_replaces`: writing GREEN to pad 5 on
channel 3 of a fresh controller. -/
theorem set_pad_color_replaces_witness :
    (set_pad_color ControllerState.init 5 PadColor.GREEN 3).toOption.map
        (fun r => dictGet r.state.led_states 5) =
      some (some ⟨PadColor.GREEN, .SOLID, true⟩) ∧
    (set_pad_color ControllerState.init 5 PadColor.GREEN 3).toOption.map
        (fun r => dictGet r.state.led_states 7) = some none :=
  ⟨(set_pad_color_replaces ControllerState.init 5 PadColor.GREEN 3
      (by decide) (by decide)).1,
   by
     have h := (set_pad_color_replaces ControllerState.init 5 PadColor.GREEN 3
       (by decide) (by decide)).2.1 7 (by decide)
     simpa [ControllerState.init, dictGet] using h⟩

/-- C2 counterexample: with the Track-1 toggle bit set, `on_clear_all`
completes, yet the toggle-state table is NOT empty afterwards (it still
holds `{0x64: True}`), and the state store holds no entry at all — in
particular not OFF — for the Track-1 button (button writes bypass the
store). -/
theorem clear_all_counterexample :
    (on_clear_all dC2).toOption.map
        (fun p => (p.1.toggle_states, dictGet p.1.controller.led_states 0x64)) =
      some ([(0x64, true)], none) := by
  have h1 := clearPads_ok (List.range 64) dC2.controller
  have h2 := clearButtons_ok ButtonType.all
  have hon : on_clear_all dC2 = .ok
      ({ dC2 with controller := { dC2.controller with led_states :=
           (List.foldl
             (fun m n => dictInsert n (LedState.mkDefault PadColor.OFF) m)
             dC2.controller.led_states (List.range 64)) } },
       (List.range 64).map (fun n => ⟨n, 0, 6⟩) ++
         ButtonType.all.map (fun b => ⟨b.value, 0, 0⟩)) := by
    simp only [on_clear_all, clear_all, h1, h2]
  rw [hon]
  show some (dC2.toggle_states, dictGet _ 0x64) = _
  rw [dictGet_foldl_insert_not_mem]
  · rfl
  · decide

/-- C2 (amended): after `on_clear_all`, the state store returns OFF for
every pad note `0..63` (stored via the default pad channel 6, not
channel 0 — the store records no channel); Track/Scene button
addresses receive no state-store entry (button writes bypass the
store) and entries at notes ≥ 64 are untouched; the toggle-state table
is left exactly as it was, not emptied; and the wire traffic is OFF
(velocity 0, channel 6) to pads 0..63 in index order followed by
velocity 0 on channel 0 to the 16 buttons in definition order. -/
theorem clear_all_amended (d : DashState) :
    ((on_clear_all d).toOption.map (fun p => p.1.toggle_states) =
      some d.toggle_states) ∧
    (∀ n : Nat, n < 64 →
      (on_clear_all d).toOption.map
          (fun p => dictGet p.1.controller.led_states n) =
        some (some ⟨PadColor.OFF, .SOLID, true⟩)) ∧
    (∀ n : Nat, 64 ≤ n →
      (on_clear_all d).toOption.map
          (fun p => dictGet p.1.controller.led_states n) =
        some (dictGet d.controller.led_states n)) ∧
    ((on_clear_all d).toOption.map (fun p => p.2) =
      some ((List.range 64).map (fun n => ⟨n, 0, 6⟩) ++
            ButtonType.all.map (fun b => ⟨b.value, 0, 0⟩))) := by
  have h1 := clearPads_ok (List.range 64) d.controller
  have h2 := clearButtons_ok ButtonType.all
  have hon : on_clear_all d = .ok
      ({ d with controller := { d.controller with led_states :=
           (List.foldl
             (fun m n => dictInsert n (LedState.mkDefault PadColor.OFF) m)
             d.controller.led_states (List.range 64)) } },
       (List.range 64).map (fun n => ⟨n, 0, 6⟩) ++
         ButtonType.all.map (fun b => ⟨b.value, 0, 0⟩)) := by
    simp only [on_clear_all, clear_all, h1, h2]
  refine ⟨?_, ?_, ?_, ?_⟩
  · rw [hon]
    rfl
  · intro n hn
    rw [hon]
    show some (dictGet _ n) = _
    rw [dictGet_foldl_insert_mem]
    · rfl
    · exact List.mem_range.mpr hn
  · intro n hn
    rw [hon]
    show some (dictGet _ n) = _
    rw [dictGet_foldl_insert_not_mem]
    intro hmem
    exact absurd (List.mem_range.mp hmem) (by omega)
  · rw [hon]
    rfl

/-- Witness for `clear_all_amended`: pad 5 reads OFF and address 100
is untouched after clearing the baseline dashboard. -/
theorem clear_all_amended_witness :
    ((on_clear_all dashBase).toOption.map
        (fun p => dictGet p.1.controller.led_states 5) =
      some (some ⟨PadColor.OFF, .SOLID, true⟩)) ∧
    ((on_clear_all dashBase).toOption.map
        (fun p => dictGet p.1.controller.led_states 100) =
      some (dictGet dashBase.controller.led_states 100)) :=
  ⟨(clear_all_amended dashBase).2.1 5 (by decide),
   (clear_all_amended dashBase).2.2.1 100 (by decide)⟩

/-- Explicit result of one physical press (`note_on`) on a pad control
configured in Toggle mode with press behavior enabled: the toggle bit
flips, and the pressed tuple is written when the bit becomes true, the
unpressed tuple otherwise. -/
theorem toggle_pad_press_eq (d : DashState) (note : Nat) (b : LedButton)
    (pc uc : PadColor)
    (hb : dictGet d.buttons note = some b)
    (hen : b.press_behavior_enabled = true)
    (hm : b.button_mode = "Toggle")
    (hpad : isTrackScene note = false)
    (hpc : PadColor.fromName b.pressed_color = some pc)
    (huc : PadColor.fromName b.unpressed_color = some uc) :
    handle_midi_input d ⟨"note_on", note⟩ =
      .ok ({ d with
               controller := { d.controller with led_states :=
                 (dictInsert note
                   (LedState.mkDefault
                     (if (dictGet d.toggle_states note).getD false then uc
                      else pc))
                   d.controller.led_states) },
               toggle_states :=
                 (dictInsert note (!((dictGet d.toggle_states note).getD false))
                   d.toggle_states) },
           [⟨note,
             (if (dictGet d.toggle_states note).getD false then uc
              else pc).value,
             if (dictGet d.toggle_states note).getD false then
               get_animation_channel b.unpressed_animation
             else get_animation_channel b.pressed_animation⟩]) := by
  cases hbit : (dictGet d.toggle_states note).getD false
  · simp [handle_midi_input, hb, hen, hm, hpad, hbit, hpc,
          set_pad_color_ok _ _ _ _ (get_animation_channel_le b.pressed_animation)]
  · simp [handle_midi_input, hb, hen, hm, hpad, hbit, huc,
          set_pad_color_ok _ _ _ _ (get_animation_channel_le b.unpressed_animation)]

/-- C5: for a control in Toggle mode with press behavior enabled, a
press flips the toggle bit and writes the pressed tuple when the bit
becomes true, else the unpressed tuple; a release causes no write and
no state change; two consecutive presses restore the toggle bit and
the second write is exactly the tuple selected by the original bit —
i.e. the control's original displayed color and channel; and a press on
a control with press behavior disabled produces no behavior-engine
write (`handle_midi_input` writes nothing, and a synthetic click falls
through to the global-selection path, writing the globally selected
color/channel instead of the control's configured tuples). -/
theorem toggle_mode_press_pair
    (d : DashState) (note : Nat) (b : LedButton) (pc uc : PadColor)
    (hb : dictGet d.buttons note = some b)
    (hen : b.press_behavior_enabled = true)
    (hm : b.button_mode = "Toggle")
    (hpad : isTrackScene note = false)
    (hpc : PadColor.fromName b.pressed_color = some pc)
    (huc : PadColor.fromName b.unpressed_color = some uc) :
    ((handle_midi_input d ⟨"note_on", note⟩).toOption.map
        (fun p => (dictGet p.1.toggle_states note, p.2)) =
      some (some (!((dictGet d.toggle_states note).getD false)),
        [⟨note,
          (if (dictGet d.toggle_states note).getD false then uc
           else pc).value,
          if (dictGet d.toggle_states note).getD false then
            get_animation_channel b.unpressed_animation
          else get_animation_channel b.pressed_animation⟩])) ∧
    (handle_midi_input d ⟨"note_off", note⟩ = .ok (d, [])) ∧
    ((pressTwice d note).toOption.map
        (fun p => (dictGet p.1.toggle_states note, p.2)) =
      some (some ((dictGet d.toggle_states note).getD false),
        [⟨note,
          (if (dictGet d.toggle_states note).getD false then pc
           else uc).value,
          if (dictGet d.toggle_states note).getD false then
            get_animation_channel b.pressed_animation
          else get_animation_channel b.unpressed_animation⟩])) ∧
    (∀ (d2 : DashState) (n2 : Nat) (b2 : LedButton),
      dictGet d2.buttons n2 = some b2 →
      b2.press_behavior_enabled = false →
      handle_midi_input d2 ⟨"note_on", n2⟩ = .ok (d2, [])) ∧
    (∀ (d2 : DashState) (n2 : Nat) (b2 : LedButton) (gc : PadColor),
      dictGet d2.buttons n2 = some b2 →
      b2.press_behavior_enabled = false →
      d2.enable_press_behavior_checked = false →
      isTrackScene n2 = false →
      PadColor.fromName d2.color_combo = some gc →
      (if strStarts d2.animation_combo "Statisch" then
         d2.brightness_combo_index
       else 7 + d2.animation_combo_index - 1) ≤ 15 →
      (on_button_click d2 n2).toOption.map (fun p => p.2) =
        some [⟨n2, gc.value,
          if strStarts d2.animation_combo "Statisch" then
            d2.brightness_combo_index
          else 7 + d2.animation_combo_index - 1⟩]) := by
  have hp1 := toggle_pad_press_eq d note b pc uc hb hen hm hpad hpc huc
  refine ⟨?_, ?_, ?_, ?_, ?_⟩
  · rw [hp1]
    show some (dictGet (dictInsert note _ d.toggle_states) note, _) = _
    rw [dictGet_insert_self]
  · simp [handle_midi_input, hb, hen, hm, hpad]
  · unfold pressTwice
    cases hbit : (dictGet d.toggle_states note).getD false <;>
      simp [handle_midi_input, hb, hen, hm, hpad, hbit, hpc, huc,
            set_pad_color_ok _ _ _ _ (get_animation_channel_le b.pressed_animation),
            set_pad_color_ok _ _ _ _ (get_animation_channel_le b.unpressed_animation),
            dictGet_insert_self, Except.toOption]
  · intro d2 n2 b2 hb2 hen2
    cases hts : isTrackScene n2 <;> simp [handle_midi_input, hb2, hen2, hts]
  · intro d2 n2 b2 gc hb2 hen2 hchk hts hgc hle
    have hok := set_pad_color_ok d2.controller n2 gc
      (if strStarts d2.animation_combo "Statisch" then d2.brightness_combo_index
       else 7 + d2.animation_combo_index - 1) hle
    simp at hok
    simp [on_button_click, hb2, hen2, hchk, hts, hgc, hok, Except.toOption]

/-- Witness for `toggle_mode_press_pair`: pad 3 of `dC5`, configured
Toggle with pressed RED / unpressed OFF, both static. -/
theorem toggle_mode_press_pair_witness :
    ((handle_midi_input dC5 ⟨"note_on", 3⟩).toOption.map
        (fun p => (dictGet p.1.toggle_states 3, p.2)) =
      some (some true, [⟨3, 5, 6⟩])) ∧
    ((pressTwice dC5 3).toOption.map
        (fun p => (dictGet p.1.toggle_states 3, p.2)) =
      some (some false, [⟨3, 0, 6⟩])) := by
  have h := toggle_mode_press_pair dC5 3 bC5 PadColor.RED PadColor.OFF
    (by decide) (by decide) (by decide) (by decide) (by decide) (by decide)
  exact ⟨h.1.trans (by decide), h.2.2.1.trans (by decide)⟩

/-- C6: every Track/Scene button write goes out on the fixed channel 0
(hard-coded in `set_button_color`, for every velocity) with velocity in
`{0, 1, 2}` (0 = off, 2 = blinking — chosen when the configured pressed
animation name contains the blink marker `"Blinken"` — 1 = solid); and
in the §8 scenario (Track-1 in Toggle mode with a blinking pressed
config) the first press sends `(note=0x64, velocity=2, channel=0)` and
the second press sends `(note=0x64, velocity=0, channel=0)`.  Button
writes never use the pad brightness/animation channel. -/
theorem button_write_convention :
    (∀ (s : ControllerState) (b : ButtonType) (v : Nat),
      (set_button_color s b v).2.channel = 0) ∧
    (∀ (d : DashState) (msg : InMsg) (res : DashState × List MidiMsg),
      isTrackScene msg.note = true →
      handle_midi_input d msg = .ok res →
      ∀ m ∈ res.2, m.channel = 0 ∧
        (m.velocity = 0 ∨ m.velocity = 1 ∨ m.velocity = 2)) ∧
    ((handle_midi_input dC6 ⟨"note_on", 0x64⟩).toOption.map (fun p => p.2) =
      some [⟨0x64, 2, 0⟩]) ∧
    ((pressTwice dC6 0x64).toOption.map (fun p => p.2) =
      some [⟨0x64, 0, 0⟩]) := by
  refine ⟨fun _ _ _ => rfl, ?_, by decide, by decide⟩
  intro d msg res hts hok m hm
  unfold handle_midi_input at hok
  repeat' split at hok
  all_goals try exact Except.noConfusion hok
  all_goals simp only [Except.ok.injEq] at hok
  all_goals subst hok
  all_goals simp at hm
  all_goals try subst hm
  all_goals refine ⟨rfl, ?_⟩
  all_goals repeat' split
  all_goals simp [set_button_color]

/-- Witness for `button_write_convention`: the first §8 scenario press
on `dC6` yields a message on channel 0 with velocity 2. -/
theorem button_write_convention_witness :
    (⟨0x64, 2, 0⟩ : MidiMsg).channel = 0 ∧
    ((⟨0x64, 2, 0⟩ : MidiMsg).velocity = 0 ∨
     (⟨0x64, 2, 0⟩ : MidiMsg).velocity = 1 ∨
     (⟨0x64, 2, 0⟩ : MidiMsg).velocity = 2) :=
  button_write_convention.2.1 dC6 ⟨"note_on", 0x64⟩
    ({ dC6 with toggle_states := [(0x64, true)] }, [⟨0x64, 2, 0⟩])
    (by decide) (by rfl) ⟨0x64, 2, 0⟩ (by decide)

/-- When no callback raises on `m`, the callback loop invokes every
registered callback, in registration order, and reports no error. -/
theorem runCallbacks_all_ok (cbs : List Callback) (i : Nat) (m : InMsg)
    (h : ∀ cb ∈ cbs, cb m = .ok ()) :
    runCallbacks cbs i m =
      ((List.range cbs.length).map (fun j => ReaderEvt.invoke (i + j) m),
       none) := by
  induction cbs generalizing i with
  | nil => rfl
  | cons cb rest ih =>
    have hcb : cb m = .ok () := h cb (List.mem_cons_self _ _)
    have ih2 := ih (i + 1) (fun c hc => h c (List.mem_cons_of_mem _ hc))
    simp only [runCallbacks, hcb, ih2, List.length_cons,
               List.range_succ_eq_map, List.map_cons, List.map_map,
               Nat.add_zero, Prod.mk.injEq, List.cons.injEq, true_and,
               and_true]
    apply List.map_congr_left
    intro j _
    have hj : i + 1 + j = i + (j + 1) := by omega
    simp [Function.comp, hj]

/-- C7: for every inbound message, a configured passthrough output
receives the raw message before any observer callback runs; when no
callback raises, every registered callback is invoked in registration
order; and an exception while processing one message is caught and
logged and the loop continues with the remaining messages instead of
terminating (so the trace of any tail of the inbound stream is a
suffix of the full trace). -/
theorem reader_dispatch_order :
    (∀ (cbs : List Callback) (m : InMsg),
      (∀ cb ∈ cbs, cb m = .ok ()) →
      processMsg true cbs m =
        (ReaderEvt.forward m ::
           (List.range cbs.length).map (fun j => ReaderEvt.invoke j m),
         none)) ∧
    (∀ (cbs : List Callback) (m : InMsg),
      (processMsg true cbs m).1 =
        ReaderEvt.forward m :: (runCallbacks cbs 0 m).1) ∧
    (∀ (lb : Bool) (cbs : List Callback) (m : InMsg) (rest : List InMsg)
       (evts : List ReaderEvt) (e : String),
      processMsg lb cbs m = (evts, some e) →
      handleInput lb cbs (m :: rest) =
        evts ++
          ReaderEvt.logError ("Fehler beim Verarbeiten der MIDI-Nachricht: " ++ e) ::
            handleInput lb cbs rest) ∧
    (∀ (lb : Bool) (cbs : List Callback) (ms1 ms2 : List InMsg),
      List.IsSuffix (handleInput lb cbs ms2)
        (handleInput lb cbs (ms1 ++ ms2))) := by
  refine ⟨?_, ?_, ?_, ?_⟩
  · intro cbs m h
    have hr := runCallbacks_all_ok cbs 0 m h
    simp [processMsg, hr]
  · intro cbs m
    rfl
  · intro lb cbs m rest evts e hp
    simp only [handleInput, hp]
    simp only [List.append_assoc, List.singleton_append]
  · intro lb cbs ms1 ms2
    induction ms1 with
    | nil => exact List.suffix_refl _
    | cons m rest ih =>
      refine ih.trans ?_
      rw [List.cons_append]
      simp only [handleInput]
      exact List.suffix_append _ _

/-- Witness for `reader_dispatch_order`: one well-behaved callback and
one raising callback on concrete messages. -/
theorem reader_dispatch_order_witness :
    processMsg true [cbOk] ⟨"note_on", 0⟩ =
      ([ReaderEvt.forward ⟨"note_on", 0⟩, ReaderEvt.invoke 0 ⟨"note_on", 0⟩],
       none) ∧
    handleInput false [fun _ => .error "kaputt"]
        [⟨"note_on", 1⟩, ⟨"note_on", 2⟩] =
      [ReaderEvt.invoke 0 ⟨"note_on", 1⟩,
       ReaderEvt.logError "Fehler beim Verarbeiten der MIDI-Nachricht: kaputt",
       ReaderEvt.invoke 0 ⟨"note_on", 2⟩,
       ReaderEvt.logError "Fehler beim Verarbeiten der MIDI-Nachricht: kaputt"] := by
  constructor
  · have hok : ∀ cb ∈ [cbOk], cb ⟨"note_on", 0⟩ = Except.ok () := by
      intro cb hcb
      rw [List.mem_singleton] at hcb
      subst hcb
      rfl
    have h := reader_dispatch_order.1 [cbOk] ⟨"note_on", 0⟩ hok
    simpa using h
  · have h := reader_dispatch_order.2.2.1 false [fun _ => .error "kaputt"]
      ⟨"note_on", 1⟩ [⟨"note_on", 2⟩]
      [ReaderEvt.invoke 0 ⟨"note_on", 1⟩] "kaputt" rfl
    rw [h]
    rfl

end Apc
